import Mathlib

/-!
Verification of `fastapi_mail/connection.py` (class `Connection`).

The Python code manages a single SMTP session: `_configure_connection`
builds an SSL context, opens an `smtplib.SMTP_SSL` or `smtplib.SMTP`
transport, optionally performs STARTTLS, and — unless `SUPPRESS_SEND`
is set — issues `connect()` and, when `USE_CREDENTIALS` is set,
`login(...)`.  Any exception in that block is re-raised as
`ConnectionErrors` with an interpolated message.  `__aexit__` calls
`self.session.quit()` unless `SUPPRESS_SEND` is set.

The embedding is a straight-line translation: every external call that
can raise is given an injectable failure through a `World` record, the
sequence of attempted network operations is recorded as a trace, and
the state of the `Connection` object (its `settings` and its `session`
attribute) is threaded explicitly.
-/

namespace FastapiMail

/-- The `verify_mode` values used by the code (`CERT_REQUIRED` is imported;
the `ssl.SSLContext()` default is `CERT_NONE`). -/
inductive VerifyMode where
  | cert_none
  | cert_required
deriving DecidableEq, Repr

/-- Observable state of an `ssl.SSLContext` object, tracking the three
attributes the code touches: `check_hostname`, `verify_mode`, and whether
`load_verify_locations` was called with a trusted CA bundle. -/
structure SSLContextState where
  check_hostname : Bool
  verify_mode : VerifyMode
  ca_loaded : Bool
deriving DecidableEq, Repr

/-- `ssl.SSLContext()` as constructed on line 53: hostname checking off,
no verification, no CA bundle loaded. -/
def sslContextInit : SSLContextState :=
  { check_hostname := false, verify_mode := VerifyMode.cert_none, ca_loaded := false }

/-- The settings the code reads from `self.settings` (a dict built from
`ConnectionConfig`); one field per key looked up in `connection.py`. -/
structure ConnectionConfig where
  MAIL_SERVER : String
  MAIL_PORT : Nat
  MAIL_USERNAME : String
  MAIL_PASSWORD : String
  MAIL_TLS : Bool
  MAIL_SSL : Bool
  VALIDATE_CERTS : Bool
  USE_CREDENTIALS : Bool
  SUPPRESS_SEND : Bool
deriving DecidableEq, Repr

/-- The transport handle stored in `self.session`: an `smtplib.SMTP_SSL`
(implicit TLS) or `smtplib.SMTP` client bound to the configured
server and port. -/
structure SMTPHandle where
  implicit_tls : Bool
  server : String
  port : Nat
deriving DecidableEq, Repr

/-- Network operations attempted by the code, in program order.  Opening
the transport (`smtplib.SMTP`/`SMTP_SSL` with a host argument opens the
connection), STARTTLS, the connect/greeting exchange, login, and quit are
each one operation. -/
inductive NetOp where
  | open_ssl (server : String) (port : Nat)
  | open_plain (server : String) (port : Nat)
  | starttls (ctx : SSLContextState)
  | connect
  | login (username password : String)
  | quit
deriving DecidableEq, Repr

/-- Injectable failures for each external call that can raise inside the
`try` block: `load_verify_locations`, the transport open, `starttls`,
`connect`, and `login`.  `some e` means that call raises an exception
whose text is `e`. -/
structure World where
  load_ca_error : Option String
  open_error : Option String
  starttls_error : Option String
  connect_error : Option String
  login_error : Option String
deriving DecidableEq, Repr

/-- Exceptions the embedded code can raise: `ConnectionErrors` (from
`fastapi_mail.errors`) and Python's `AttributeError` for access to a
never-assigned attribute. -/
inductive PyError where
  | connection_errors (msg : String)
  | attribute_error (attr : String)
deriving DecidableEq, Repr

/-- The `Connection` object: the stored settings snapshot and the
`self.session` attribute (`none` = never assigned). -/
structure Connection where
  settings : ConnectionConfig
  session : Option SMTPHandle
deriving DecidableEq, Repr

/-- `Connection.__init__`: stores the settings; `self.session` is not
assigned until `_configure_connection` runs. -/
def Connection.init (settings : ConnectionConfig) : Connection :=
  { settings := settings, session := none }

/-- Lines 52–58: build the SSL context.  `ssl_context = SSLContext()`;
if `VALIDATE_CERTS` is truthy, set `check_hostname = True`,
`verify_mode = CERT_REQUIRED`, and `load_verify_locations(certifi.where())`
(which may raise). -/
def buildSSLContext (validate_certs : Bool) (w : World) : Except String SSLContextState :=
  let ssl_context := sslContextInit
  if validate_certs then
    match w.load_ca_error with
    | some e => Except.error e
    | none =>
        Except.ok { check_hostname := true
                    verify_mode := VerifyMode.cert_required
                    ca_loaded := true }
  else
    Except.ok ssl_context

/-- Lines 76–85: unless `SUPPRESS_SEND`, call `self.session.connect()`
and then, if `USE_CREDENTIALS`, `self.session.login(username, password)`.
Returns the attempted operations and the first raised error, if any. -/
def connectAndLogin (s : ConnectionConfig) (w : World) : List NetOp × Option String :=
  if s.SUPPRESS_SEND then ([], none)
  else
    match w.connect_error with
    | some e => ([NetOp.connect], some e)
    | none =>
      if s.USE_CREDENTIALS then
        match w.login_error with
        | some e => ([NetOp.connect, NetOp.login s.MAIL_USERNAME s.MAIL_PASSWORD], some e)
        | none => ([NetOp.connect, NetOp.login s.MAIL_USERNAME s.MAIL_PASSWORD], none)
      else ([NetOp.connect], none)

/-- The body of the `try` block of `_configure_connection` (lines 51–85):
build the SSL context, open `SMTP_SSL` or `SMTP` against
`MAIL_SERVER:MAIL_PORT` and assign it to `self.session`, STARTTLS if
`MAIL_TLS`, then `connectAndLogin`.  Returns the final object state, the
trace of attempted network operations, and the raised error, if any.
If a call raises, execution stops there; `self.session` keeps whatever
value it had at that point. -/
def tryConfigure (c : Connection) (w : World) : Connection × List NetOp × Option String :=
  let s := c.settings
  match buildSSLContext s.VALIDATE_CERTS w with
  | Except.error e => (c, [], some e)
  | Except.ok ssl_context =>
    let op : NetOp :=
      if s.MAIL_SSL then NetOp.open_ssl s.MAIL_SERVER s.MAIL_PORT
      else NetOp.open_plain s.MAIL_SERVER s.MAIL_PORT
    match w.open_error with
    | some e => (c, [op], some e)
    | none =>
      let handle : SMTPHandle :=
        { implicit_tls := s.MAIL_SSL, server := s.MAIL_SERVER, port := s.MAIL_PORT }
      let c1 : Connection := { settings := s, session := some handle }
      if s.MAIL_TLS then
        match w.starttls_error with
        | some e => (c1, [op, NetOp.starttls ssl_context], some e)
        | none =>
          let rest := connectAndLogin s w
          (c1, op :: NetOp.starttls ssl_context :: rest.1, rest.2)
      else
        let rest := connectAndLogin s w
        (c1, op :: rest.1, rest.2)

/-- The f-string on line 89: the message of the raised `ConnectionErrors`,
with the caught exception's text interpolated. -/
def wrapMsg (error : String) : String :=
  "Exception raised " ++ error ++ ", check your credentials or email service configuration"

/-- `_configure_connection` (lines 50–90): run the `try` body; if it
raised, re-raise as `ConnectionErrors` with the wrapped message. -/
def Connection.configure_connection (c : Connection) (w : World) :
    Connection × List NetOp × Option PyError :=
  let r := tryConfigure c w
  (r.1, r.2.1, r.2.2.map (fun e => PyError.connection_errors (wrapMsg e)))

/-- `__aexit__` (lines 46–48): unless `SUPPRESS_SEND`, call
`self.session.quit()`.  If `self.session` was never assigned, the
attribute access itself raises `AttributeError`. -/
def Connection.aexit (c : Connection) : List NetOp × Option PyError :=
  if c.settings.SUPPRESS_SEND then ([], none)
  else
    match c.session with
    | none => ([], some (PyError.attribute_error "session"))
    | some _ => ([NetOp.quit], none)

/-- The SSL context value produced by lines 52–58 when no call fails:
fully verifying when `VALIDATE_CERTS` is set, the unverified default
otherwise. -/
def builtContext (validate_certs : Bool) : SSLContextState :=
  if validate_certs then
    { check_hostname := true, verify_mode := VerifyMode.cert_required, ca_loaded := true }
  else sslContextInit

/-- A `World` in which no external call fails. -/
def okWorld : World :=
  { load_ca_error := none, open_error := none, starttls_error := none,
    connect_error := none, login_error := none }

/-- `_configure_connection` never changes `self.settings`. -/
theorem configure_settings_eq (c : Connection) (w : World) :
    (c.configure_connection w).1.settings = c.settings := by
  obtain ⟨⟨srv, prt, u, p, tls, ssl, vc, uc, sup⟩, sess⟩ := c
  obtain ⟨lca, oe, se, ce, le⟩ := w
  simp only [Connection.configure_connection, tryConfigure, buildSSLContext,
    connectAndLogin, sslContextInit]
  rcases vc <;> rcases lca <;> rcases oe <;> rcases ssl <;> rcases tls <;>
    rcases se <;> rcases sup <;> rcases ce <;> rcases uc <;> rcases le <;> rfl

/-- Claim C1 counterexample: a configuration with `SUPPRESS_SEND = true`
for which `open()` still performs network I/O — the trace contains the
transport open and the STARTTLS exchange — even though it succeeds
(reaches Configured).  This refutes "open() performs zero network I/O"
with `suppress_send` set. -/
theorem c1_counterexample :
    (ConnectionConfig.mk "smtp.example.com" 587 "a" "b" true false false true
        true).SUPPRESS_SEND = true ∧
    ((Connection.init (ConnectionConfig.mk "smtp.example.com" 587 "a" "b" true false false
        true true)).configure_connection okWorld).2.1 =
      [NetOp.open_plain "smtp.example.com" 587, NetOp.starttls sslContextInit] ∧
    ((Connection.init (ConnectionConfig.mk "smtp.example.com" 587 "a" "b" true false false
        true true)).configure_connection okWorld).2.2 = none :=
  ⟨rfl, rfl, rfl⟩

/-- Claim C1 (amended): with `suppress_send` set, `open()` skips the
connect/greeting and login steps, but it still opens the transport and,
when `MAIL_TLS` is set, still issues STARTTLS; when those calls succeed
the session reaches Configured and `close()` is a no-op. -/
theorem c1_amended (cfg : ConnectionConfig) (w : World)
    (hsup : cfg.SUPPRESS_SEND = true)
    (hca : w.load_ca_error = none) (hop : w.open_error = none)
    (hst : w.starttls_error = none) :
    ((Connection.init cfg).configure_connection w).2.1 =
      (if cfg.MAIL_SSL then NetOp.open_ssl cfg.MAIL_SERVER cfg.MAIL_PORT
       else NetOp.open_plain cfg.MAIL_SERVER cfg.MAIL_PORT) ::
      (if cfg.MAIL_TLS then [NetOp.starttls (builtContext cfg.VALIDATE_CERTS)] else []) ∧
    ((Connection.init cfg).configure_connection w).2.2 = none ∧
    ((Connection.init cfg).configure_connection w).1.aexit = ([], none) := by
  obtain ⟨srv, prt, u, p, tls, ssl, vc, uc, sup⟩ := cfg
  obtain ⟨lca, oe, se, ce, le⟩ := w
  simp only at hsup hca hop hst
  subst hsup hca hop hst
  simp only [Connection.init, Connection.configure_connection, tryConfigure,
    buildSSLContext, connectAndLogin, Connection.aexit, builtContext, sslContextInit]
  rcases vc <;> rcases ssl <;> rcases tls <;> simp

/-- Claim C1 amended, instantiated: Scenario-B-style config (plain
transport, STARTTLS requested, suppress on) with no failing call. -/
theorem c1_amended_witness :
    ((Connection.init (ConnectionConfig.mk "smtp.example.com" 587 "a" "b" true false false
        true true)).configure_connection okWorld).2.1 =
      [NetOp.open_plain "smtp.example.com" 587, NetOp.starttls sslContextInit] ∧
    ((Connection.init (ConnectionConfig.mk "smtp.example.com" 587 "a" "b" true false false
        true true)).configure_connection okWorld).2.2 = none ∧
    ((Connection.init (ConnectionConfig.mk "smtp.example.com" 587 "a" "b" true false false
        true true)).configure_connection okWorld).1.aexit = ([], none) :=
  c1_amended (ConnectionConfig.mk "smtp.example.com" 587 "a" "b" true false false true true)
    okWorld rfl rfl rfl rfl

/-- Claim C2 counterexample: a plain open succeeds and the subsequent
STARTTLS fails; `open()` raises `ConnectionErrors`, yet the transport
handle opened in step 2 is still assigned to `self.session` — refuting
"no usable transport handle is left on the session". -/
theorem c2_counterexample :
    (((Connection.init (ConnectionConfig.mk "smtp.example.com" 587 "a" "b" true false false
        true false)).configure_connection
        (World.mk none none (some "handshake failed") none none)).2.2).isSome = true ∧
    ((Connection.init (ConnectionConfig.mk "smtp.example.com" 587 "a" "b" true false false
        true false)).configure_connection
        (World.mk none none (some "handshake failed") none none)).1.session =
      some (SMTPHandle.mk false "smtp.example.com" 587) :=
  ⟨rfl, rfl⟩

/-- Claim C2 (amended): every failure during `open()` surfaces as
`ConnectionErrors` (so the session never reports Configured — `__aenter__`
raises instead of returning), but the session object does retain the
transport handle whenever the transport open succeeded before the
failure: `self.session` is assigned exactly when the context build and
the transport open both succeeded. -/
theorem c2_amended (cfg : ConnectionConfig) (w : World) :
    (((Connection.init cfg).configure_connection w).2.2 = none ∨
      ∃ m, ((Connection.init cfg).configure_connection w).2.2 =
        some (PyError.connection_errors m)) ∧
    ((Connection.init cfg).configure_connection w).1.session =
      (if (!cfg.VALIDATE_CERTS || w.load_ca_error.isNone) && w.open_error.isNone then
        some (SMTPHandle.mk cfg.MAIL_SSL cfg.MAIL_SERVER cfg.MAIL_PORT)
      else none) := by
  obtain ⟨srv, prt, u, p, tls, ssl, vc, uc, sup⟩ := cfg
  obtain ⟨lca, oe, se, ce, le⟩ := w
  rcases vc <;> rcases lca <;> rcases oe <;> rcases ssl <;> rcases tls <;>
    rcases se <;> rcases sup <;> rcases ce <;> rcases uc <;> rcases le <;>
    first
      | exact ⟨Or.inl rfl, rfl⟩
      | exact ⟨Or.inr ⟨_, rfl⟩, rfl⟩

set_option maxRecDepth 8192 in
/-- Claim C3 counterexample: an authentication failure is re-raised as
`ConnectionErrors` whose message is
"Exception raised bad credentials, check your credentials or email service
configuration"; the fixed message claimed by the spec, "connection failed:
check credentials or mail service configuration", does not occur in it
(not even as a substring). -/
theorem c3_counterexample :
    ((Connection.init (ConnectionConfig.mk "smtp.example.com" 587 "a" "b" true false false
        true false)).configure_connection
        (World.mk none none none none (some "bad credentials"))).2.2 =
      some (PyError.connection_errors
        "Exception raised bad credentials, check your credentials or email service configuration") ∧
    ¬ (String.toList
          "connection failed: check credentials or mail service configuration" <:+:
        String.toList
          "Exception raised bad credentials, check your credentials or email service configuration") :=
  ⟨rfl, by decide⟩

/-- Claim C3 (amended): every failure during `open()` escapes only as
`ConnectionErrors`, whose message is
"Exception raised {cause}, check your credentials or email service
configuration" — it carries the text of the original underlying cause as
a substring, but its fixed guidance text differs from the one the spec
states. -/
theorem c3_amended (cfg : ConnectionConfig) (w : World) :
    ((Connection.init cfg).configure_connection w).2.2 = none ∨
      ∃ e, (tryConfigure (Connection.init cfg) w).2.2 = some e ∧
        ((Connection.init cfg).configure_connection w).2.2 =
          some (PyError.connection_errors (wrapMsg e)) ∧
        String.toList e <:+: String.toList (wrapMsg e) := by
  rcases h : (tryConfigure (Connection.init cfg) w).2.2 with _ | e
  · left
    simp [Connection.configure_connection, h]
  · right
    refine ⟨e, rfl, ?_, ?_⟩
    · simp [Connection.configure_connection, h]
    · refine ⟨String.toList "Exception raised ",
        String.toList ", check your credentials or email service configuration", ?_⟩
      simp [wrapMsg, String.toList]

/-- STARTTLS is never among the operations attempted by lines 76–85
(connect and login only). -/
theorem starttls_notin_connectAndLogin (s : ConnectionConfig) (w : World)
    (ctx : SSLContextState) :
    NetOp.starttls ctx ∉ (connectAndLogin s w).1 := by
  cases hs : s.SUPPRESS_SEND <;> cases hc : w.connect_error <;>
    cases hu : s.USE_CREDENTIALS <;> cases hl : w.login_error <;>
    simp [connectAndLogin, hs, hc, hu, hl]

/-- Claim C4: `open()` opens an implicit-TLS transport against
`MAIL_SERVER:MAIL_PORT` when `MAIL_SSL` is set and a plain transport
otherwise; then, exactly when `MAIL_TLS` is set, it issues STARTTLS on
the now-open transport with the context built in step 1 (so with both
flags set, both steps execute). -/
theorem c4_transport_mode (cfg : ConnectionConfig) (w : World)
    (hca : w.load_ca_error = none) :
    (∃ rest, ((Connection.init cfg).configure_connection w).2.1 =
      (if cfg.MAIL_SSL then NetOp.open_ssl cfg.MAIL_SERVER cfg.MAIL_PORT
       else NetOp.open_plain cfg.MAIL_SERVER cfg.MAIL_PORT) :: rest) ∧
    (cfg.MAIL_TLS = true → w.open_error = none →
      ∃ rest, ((Connection.init cfg).configure_connection w).2.1 =
        (if cfg.MAIL_SSL then NetOp.open_ssl cfg.MAIL_SERVER cfg.MAIL_PORT
         else NetOp.open_plain cfg.MAIL_SERVER cfg.MAIL_PORT) ::
          NetOp.starttls (builtContext cfg.VALIDATE_CERTS) :: rest) ∧
    (cfg.MAIL_TLS = false →
      ∀ ctx, NetOp.starttls ctx ∉ ((Connection.init cfg).configure_connection w).2.1) := by
  obtain ⟨srv, prt, u, p, tls, ssl, vc, uc, sup⟩ := cfg
  obtain ⟨lca, oe, se, ce, le⟩ := w
  simp only at hca
  subst hca
  refine ⟨?_, ?_, ?_⟩
  · rcases vc <;> rcases oe <;> rcases ssl <;> rcases tls <;> rcases se <;>
      exact ⟨_, rfl⟩
  · intro htls hop
    simp only at htls hop
    subst htls
    subst hop
    rcases vc <;> rcases ssl <;> rcases se <;> exact ⟨_, rfl⟩
  · intro htls ctx
    simp only at htls
    subst htls
    rcases vc <;> rcases oe <;> rcases ssl <;>
      simp [Connection.init, Connection.configure_connection, tryConfigure,
        buildSSLContext, sslContextInit, starttls_notin_connectAndLogin]

/-- Claim C4, instantiated: both `MAIL_SSL` and `MAIL_TLS` set — the
trace opens implicit TLS and then issues STARTTLS. -/
theorem c4_witness :
    ∃ rest, ((Connection.init (ConnectionConfig.mk "smtp.example.com" 465 "a" "b" true true
        false false false)).configure_connection okWorld).2.1 =
      NetOp.open_ssl "smtp.example.com" 465 ::
        NetOp.starttls (builtContext false) :: rest :=
  (c4_transport_mode (ConnectionConfig.mk "smtp.example.com" 465 "a" "b" true true
    false false false) okWorld rfl).2.1 rfl rfl

/-- Claim C5: with `suppress_send` unset, `open()` issues the
connect/greeting exchange on the transport handle bound to the configured
server and port, and issues a login with the configured username and
password exactly when `use_credentials` is set; with `use_credentials`
unset no login operation appears at all, even though username and
password are present in the settings. -/
theorem c5_connect_and_login (cfg : ConnectionConfig) (w : World)
    (hsup : cfg.SUPPRESS_SEND = false)
    (hca : w.load_ca_error = none) (hop : w.open_error = none)
    (hst : w.starttls_error = none) (hcn : w.connect_error = none) :
    ((Connection.init cfg).configure_connection w).1.session =
      some (SMTPHandle.mk cfg.MAIL_SSL cfg.MAIL_SERVER cfg.MAIL_PORT) ∧
    NetOp.connect ∈ ((Connection.init cfg).configure_connection w).2.1 ∧
    (cfg.USE_CREDENTIALS = true →
      NetOp.login cfg.MAIL_USERNAME cfg.MAIL_PASSWORD ∈
        ((Connection.init cfg).configure_connection w).2.1) ∧
    (cfg.USE_CREDENTIALS = false →
      ∀ u2 p2, NetOp.login u2 p2 ∉ ((Connection.init cfg).configure_connection w).2.1) := by
  obtain ⟨srv, prt, u, p, tls, ssl, vc, uc, sup⟩ := cfg
  obtain ⟨lca, oe, se, ce, le⟩ := w
  simp only at hsup hca hop hst hcn
  subst hsup hca hop hst hcn
  rcases vc <;> rcases ssl <;> rcases tls <;> rcases uc <;> rcases le <;>
    simp [Connection.init, Connection.configure_connection, tryConfigure,
      buildSSLContext, connectAndLogin, sslContextInit]

/-- Claim C5, instantiated at Scenario A (plain transport to port 587,
STARTTLS, credentials "a"/"b"): the login operation with "a"/"b" is in
the trace. -/
theorem c5_witness :
    NetOp.login "a" "b" ∈
      ((Connection.init (ConnectionConfig.mk "smtp.example.com" 587 "a" "b" true false false
        true false)).configure_connection okWorld).2.1 :=
  (c5_connect_and_login (ConnectionConfig.mk "smtp.example.com" 587 "a" "b" true false false
    true false) okWorld rfl rfl rfl rfl rfl).2.2.1 rfl

/-- Claim C6: the SSL context built by `open()` has hostname checking
on, `CERT_REQUIRED` verification, and a trusted CA bundle loaded when
`VALIDATE_CERTS` is set; with `VALIDATE_CERTS` unset it is the bare
`SSLContext()` default — hostname checking off, no verification, no CA
bundle. -/
theorem c6_ssl_context (w : World) (hca : w.load_ca_error = none) :
    buildSSLContext true w =
      Except.ok { check_hostname := true, verify_mode := VerifyMode.cert_required,
                  ca_loaded := true } ∧
    buildSSLContext false w =
      Except.ok { check_hostname := false, verify_mode := VerifyMode.cert_none,
                  ca_loaded := false } := by
  obtain ⟨lca, oe, se, ce, le⟩ := w
  simp only at hca
  subst hca
  exact ⟨rfl, rfl⟩

/-- Claim C6, instantiated in the failure-free world. -/
theorem c6_witness :
    buildSSLContext true okWorld =
      Except.ok { check_hostname := true, verify_mode := VerifyMode.cert_required,
                  ca_loaded := true } :=
  (c6_ssl_context okWorld rfl).1

/-- Claim C7 counterexample: `open()` succeeds (the session is
Configured), and a second `open()` on that very session object is
neither rejected nor fails fast: it succeeds again and re-runs the full
sequence, opening the transport a second time. -/
theorem c7_counterexample :
    ((Connection.init (ConnectionConfig.mk "smtp.example.com" 587 "a" "b" false false false
        false false)).configure_connection okWorld).2.2 = none ∧
    (((Connection.init (ConnectionConfig.mk "smtp.example.com" 587 "a" "b" false false false
        false false)).configure_connection okWorld).1.configure_connection
        okWorld).2.2 = none ∧
    (((Connection.init (ConnectionConfig.mk "smtp.example.com" 587 "a" "b" false false false
        false false)).configure_connection okWorld).1.configure_connection
        okWorld).2.1 =
      [NetOp.open_plain "smtp.example.com" 587, NetOp.connect] :=
  ⟨rfl, rfl, rfl⟩

/-- Claim C7 (amended): a second call to `open()` is not guarded at all:
on any `Connection` object it behaves exactly as a fresh `open()` with
the same settings (same operations, same outcome), and whenever the
context build and the transport open succeed it silently assigns a new
transport handle to `self.session`, overwriting the previous one. -/
theorem c7_amended (c : Connection) (w : World) :
    (c.configure_connection w).2 =
      ((Connection.init c.settings).configure_connection w).2 ∧
    (((!c.settings.VALIDATE_CERTS || w.load_ca_error.isNone) && w.open_error.isNone) = true →
      (c.configure_connection w).1.session =
        some (SMTPHandle.mk c.settings.MAIL_SSL c.settings.MAIL_SERVER
          c.settings.MAIL_PORT)) := by
  obtain ⟨⟨srv, prt, u, p, tls, ssl, vc, uc, sup⟩, sess⟩ := c
  obtain ⟨lca, oe, se, ce, le⟩ := w
  rcases vc <;> rcases lca <;> rcases oe <;> rcases ssl <;> rcases tls <;>
    rcases se <;> rcases sup <;> rcases ce <;> rcases uc <;> rcases le <;>
    first
      | exact ⟨rfl, fun _ => rfl⟩
      | exact ⟨rfl, fun h2 => nomatch h2⟩

/-- Claim C7 amended, instantiated on an already-Configured session: the
second open reassigns a fresh handle. -/
theorem c7_witness :
    ((Connection.mk (ConnectionConfig.mk "smtp.example.com" 587 "a" "b" false false false
        false false) (some (SMTPHandle.mk false "smtp.example.com"
        587))).configure_connection okWorld).1.session =
      some (SMTPHandle.mk false "smtp.example.com" 587) :=
  (c7_amended (Connection.mk (ConnectionConfig.mk "smtp.example.com" 587 "a" "b" false false
    false false false) (some (SMTPHandle.mk false "smtp.example.com" 587))) okWorld).2 rfl

/-- Claim C8: on a session holding a transport handle, `close()`
(`__aexit__`) is a no-op when `SUPPRESS_SEND` was set, and otherwise
issues exactly one quit operation on the handle and raises nothing. -/
theorem c8_close (c : Connection) (h : c.session.isSome = true) :
    (c.settings.SUPPRESS_SEND = true → c.aexit = ([], none)) ∧
    (c.settings.SUPPRESS_SEND = false → c.aexit = ([NetOp.quit], none)) := by
  obtain ⟨s, sess⟩ := c
  rcases sess with _ | hdl
  · simp at h
  · refine ⟨fun hs => ?_, fun hs => ?_⟩ <;>
      · simp only at hs
        simp [Connection.aexit, hs]

/-- Claim C8, instantiated: with `SUPPRESS_SEND` unset, `close()` on a
Configured session issues exactly one quit. -/
theorem c8_witness :
    (Connection.mk (ConnectionConfig.mk "smtp.example.com" 587 "a" "b" true false false
        true false) (some (SMTPHandle.mk false "smtp.example.com" 587))).aexit =
      ([NetOp.quit], none) :=
  (c8_close (Connection.mk (ConnectionConfig.mk "smtp.example.com" 587 "a" "b" true false
    false true false) (some (SMTPHandle.mk false "smtp.example.com" 587))) rfl).2 rfl

/-- Claim C9: with `MAIL_SSL` set and `MAIL_TLS` unset, two
configurations differing only in `VALIDATE_CERTS` produce identical
`open()` behavior — same operation trace, same outcome, same stored
handle — because the SSL context is passed only to STARTTLS, which never
runs: no STARTTLS operation (the only operation carrying the context)
occurs in the trace. -/
theorem c9_validate_certs_unused (cfg : ConnectionConfig) (b : Bool) (w : World)
    (hssl : cfg.MAIL_SSL = true) (htls : cfg.MAIL_TLS = false)
    (hca : w.load_ca_error = none) :
    ((Connection.init { cfg with VALIDATE_CERTS := b }).configure_connection w).2 =
      ((Connection.init cfg).configure_connection w).2 ∧
    ((Connection.init { cfg with VALIDATE_CERTS := b }).configure_connection w).1.session =
      ((Connection.init cfg).configure_connection w).1.session ∧
    (∀ ctx, NetOp.starttls ctx ∉ ((Connection.init cfg).configure_connection w).2.1) := by
  obtain ⟨srv, prt, u, p, tls, ssl, vc, uc, sup⟩ := cfg
  obtain ⟨lca, oe, se, ce, le⟩ := w
  simp only at hssl htls hca
  subst hssl htls hca
  refine ⟨?_, ?_, ?_⟩
  · rcases b <;> rcases vc <;> rcases oe <;> rfl
  · rcases b <;> rcases vc <;> rcases oe <;> rfl
  · intro ctx
    rcases vc <;> rcases oe <;>
      simp [Connection.init, Connection.configure_connection, tryConfigure,
        buildSSLContext, sslContextInit, starttls_notin_connectAndLogin]

/-- Claim C9, instantiated: implicit TLS on port 465, `VALIDATE_CERTS`
flipped to false against a config with it true — identical trace and
outcome. -/
theorem c9_witness :
    ((Connection.init { ConnectionConfig.mk "smtp.example.com" 465 "a" "b" false true true
        false false with VALIDATE_CERTS := false }).configure_connection okWorld).2 =
      ((Connection.init (ConnectionConfig.mk "smtp.example.com" 465 "a" "b" false true true
        false false)).configure_connection okWorld).2 :=
  (c9_validate_certs_unused (ConnectionConfig.mk "smtp.example.com" 465 "a" "b" false true
    true false false) false okWorld rfl rfl rfl).1

/-- Claim C10: when `open()` fails before `self.session` is ever
assigned (context build or transport open raises), a later `close()`
with `SUPPRESS_SEND` unset performs no quit operation and itself raises:
`__aexit__` unconditionally accesses `self.session`, which was never
created, so the attribute access fails. -/
theorem c10_close_after_early_failure (cfg : ConnectionConfig) (w : World)
    (hsup : cfg.SUPPRESS_SEND = false)
    (hsess : ((Connection.init cfg).configure_connection w).1.session = none) :
    ((Connection.init cfg).configure_connection w).1.aexit =
      ([], some (PyError.attribute_error "session")) := by
  have hset : ((Connection.init cfg).configure_connection w).1.settings = cfg :=
    configure_settings_eq (Connection.init cfg) w
  simp [Connection.aexit, hset, hsess, hsup]

/-- Claim C10, instantiated: the transport open is refused, so no handle
was ever assigned; `close()` performs no quit and raises
`AttributeError`. -/
theorem c10_witness :
    ((Connection.init (ConnectionConfig.mk "smtp.example.com" 587 "a" "b" true false false
        true false)).configure_connection
        (World.mk none (some "connection refused") none none none)).1.aexit =
      ([], some (PyError.attribute_error "session")) :=
  c10_close_after_early_failure (ConnectionConfig.mk "smtp.example.com" 587 "a" "b" true
    false false true false) (World.mk none (some "connection refused") none none none)
    rfl rfl

end FastapiMail
